import Mathlib

/-!
Shallow embedding of the streaming progress reconciliation engine of the
company-research-tool client (the `App` component's SSE `onmessage` handler,
`resetResearch`, and the connection handle management).  React `useState`
cells become fields of `AppState`; each `onmessage` branch becomes a pure
state-update function; `setTimeout`-scheduled collapse actions are recorded
as schedule counters; closing the `EventSource` handle is recorded in the
`streamOpen` flag.
-/

namespace CompanyResearch

/-- The coarse lifecycle phase of a research job. -/
inductive Phase
  | search
  | enrichment
  | briefing
  | complete
deriving DecidableEq, Repr

/-- The display status: `{ step, message }` as set by `setStatus`. -/
structure ResearchStatusType where
  step : String
  message : String
deriving DecidableEq, Repr

/-- A finalized query record as appended to the `queries` array:
`{ text: data.query, number: data.query_number, category: data.category }`.
Fields keep the possibly-undefined JS values. -/
structure QueryRecord where
  text : Option String
  number : Option Nat
  category : Option String
deriving DecidableEq, Repr

/-- A streaming (partial) query as stored in the `streamingQueries` object. -/
structure StreamingQuery where
  text : Option String
  number : Option Nat
  category : Option String
  isComplete : Bool
deriving DecidableEq, Repr

/-- One per-category enrichment counter `{ total, enriched }`. -/
structure EnrichmentCounter where
  total : Nat
  enriched : Nat
deriving DecidableEq, Repr

/-- A decoded SSE payload.  The JS object is duck-typed; we carry every field
any branch of the handler reads, each optional (absent = `undefined`). -/
structure RawEvent where
  type : String
  step : Option String := none
  query : Option String := none
  query_number : Option Nat := none
  category : Option String := none
  total : Option Nat := none
  enriched : Option Nat := none
  chunk : Option String := none
  report : Option String := none
  message : Option String := none
  errorMsg : Option String := none
  total_docs : Option Nat := none
  content_length : Option Nat := none
  company : Option String := none
deriving DecidableEq, Repr

/-- The React state cells of `App` that the reconciliation engine touches.
JS string-keyed objects (`streamingQueries`, `enrichmentCounts`,
`briefingStatus`) are insertion-ordered key/value lists, matching object
spread semantics.  `report` models `output` (`none` = `null`, otherwise the
value of `output.details.report`).  `streamOpen` models whether the
`EventSource` handle is open; the `collapse*Scheduled` counters count the
`setTimeout` collapse actions scheduled so far. -/
structure AppState where
  isResearching : Bool
  status : Option ResearchStatusType
  report : Option String
  errorMsg : Option String
  isComplete : Bool
  currentPhase : Option Phase
  queries : List QueryRecord
  streamingQueries : List (String × StreamingQuery)
  enrichmentCounts : Option (List (String × EnrichmentCounter))
  briefingStatus : List (String × Bool)
  isQueriesExpanded : Bool
  isEnrichmentExpanded : Bool
  isBriefingExpanded : Bool
  hasScrolledToStatus : Bool
  isReportStreaming : Bool
  streamOpen : Bool
  collapseQueriesScheduled : Nat
  collapseEnrichmentScheduled : Nat
  collapseBriefingsScheduled : Nat
deriving DecidableEq, Repr

/-- JS truthiness of a possibly-undefined string: defined and nonempty. -/
def truthy (o : Option String) : Bool :=
  o.getD "" != ""

/-- JS template-string rendering of a possibly-undefined string. -/
def jsShow : Option String → String
  | some s => s
  | none => "undefined"

/-- JS template-string rendering of a possibly-undefined number. -/
def jsShowNat : Option Nat → String
  | some n => toString n
  | none => "undefined"

/-- `m || dflt` for a possibly-undefined string `m`. -/
def msgOr (m : Option String) (dflt : String) : String :=
  if truthy m then m.getD "" else dflt

/-- The streaming-query key: `` `${data.category}_${data.query_number}` ``. -/
def qKey (c : Option String) (n : Option Nat) : String :=
  jsShow c ++ "_" ++ jsShowNat n

/-- Object-spread update `{...prev, [k]: v}`: replace in place if the key
exists, else append (JS objects preserve insertion order). -/
def upsert {α : Type} (l : List (String × α)) (k : String) (v : α) :
    List (String × α) :=
  if l.any (fun p => p.1 == k) then
    l.map (fun p => if p.1 == k then (k, v) else p)
  else
    l ++ [(k, v)]

/-- `delete obj[k]` on a spread copy. -/
def removeKey {α : Type} (l : List (String × α)) (k : String) :
    List (String × α) :=
  l.filter (fun p => p.1 != k)

/-- `obj[k]` (`undefined` when absent). -/
def lookupKey {α : Type} (l : List (String × α)) (k : String) : Option α :=
  (l.find? (fun p => p.1 == k)).map (fun p => p.2)

/-- `k in obj` membership. -/
def keyMem {α : Type} (l : List (String × α)) (k : String) : Bool :=
  l.any (fun p => p.1 == k)

/-- The `getStepName` lookup table mapping node names to display labels. -/
def getStepName (nodeName : String) : String :=
  if nodeName = "grounding" then "Search"
  else if nodeName = "financial_analyst" then "Search"
  else if nodeName = "news_scanner" then "Search"
  else if nodeName = "industry_analyst" then "Search"
  else if nodeName = "company_analyst" then "Search"
  else if nodeName = "collector" then "Search"
  else if nodeName = "curator" then "Enriching"
  else if nodeName = "enricher" then "Enriching"
  else if nodeName = "briefing" then "Briefing"
  else if nodeName = "editor" then "Finalizing"
  else nodeName

/-- `scrollToStatus`: scrolls and latches `hasScrolledToStatus` on first use. -/
def scrollToStatus (s : AppState) : AppState :=
  if s.hasScrolledToStatus then s else { s with hasScrolledToStatus := true }

/-- The `data.type === 'progress' && data.step` branch. -/
def handleProgress (s : AppState) (d : RawEvent) : AppState :=
  let stepStr := d.step.getD ""
  let s := { s with status := some ⟨getStepName stepStr, "Processing " ++ stepStr ++ "..."⟩ }
  let s :=
    if stepStr ∈ ["grounding", "financial_analyst", "news_scanner", "industry_analyst",
        "company_analyst", "collector"] then
      { s with currentPhase := some Phase.search }
    else if stepStr ∈ ["curator", "enricher"] then
      { s with currentPhase := some Phase.enrichment }
    else if stepStr = "briefing" then
      { s with currentPhase := some Phase.briefing }
    else s
  scrollToStatus s

/-- The `query_generating` branch. -/
def handleQueryGenerating (s : AppState) (d : RawEvent) : AppState :=
  let s := { s with
    currentPhase := some Phase.search,
    status := some ⟨"Search", "Query " ++ jsShowNat d.query_number ++ ": " ++ jsShow d.query⟩ }
  { s with streamingQueries :=
      (upsert s.streamingQueries (qKey d.category d.query_number)
        ⟨d.query, d.query_number, d.category, false⟩) }

/-- The `query_generated` branch. -/
def handleQueryGenerated (s : AppState) (d : RawEvent) : AppState :=
  let s := { s with
    currentPhase := some Phase.search,
    status := some ⟨"Search", "Generated: " ++ jsShow d.query⟩ }
  let s := { s with queries := s.queries ++ [QueryRecord.mk d.query d.query_number d.category] }
  let s := { s with streamingQueries :=
      (removeKey s.streamingQueries (qKey d.category d.query_number)) }
  scrollToStatus s

/-- The `research_init` branch. -/
def handleResearchInit (s : AppState) (d : RawEvent) : AppState :=
  { s with
    currentPhase := some Phase.search,
    status := some ⟨"Initializing",
      msgOr d.message ("Initiating research for " ++ jsShow d.company)⟩ }

/-- The `crawl_start` branch. -/
def handleCrawlStart (s : AppState) (d : RawEvent) : AppState :=
  { s with
    currentPhase := some Phase.search,
    status := some ⟨"Website Crawl", msgOr d.message "Crawling company website"⟩ }

/-- The `curation` branch: phase to enrichment, counter entry replaced with
`{total: data.total || 0, enriched: 0}` when a category is present, queries
collapse scheduled, scroll. -/
def handleCuration (s : AppState) (d : RawEvent) : AppState :=
  let s := { s with
    currentPhase := some Phase.enrichment,
    status := some ⟨"Curating data",
      msgOr d.message ("Curating " ++ jsShow d.category ++ " documents")⟩ }
  let s :=
    if truthy d.category then
      { s with enrichmentCounts :=
          (some (upsert (s.enrichmentCounts.getD []) (d.category.getD "")
            ⟨d.total.getD 0, 0⟩)) }
    else s
  let s := { s with collapseQueriesScheduled := s.collapseQueriesScheduled + 1 }
  scrollToStatus s

/-- The `enrichment` branch: when `data.category` is truthy and
`data.enriched !== undefined` and the counters object exists, write
`{total: prev[category]?.total || data.total || 0, enriched: data.enriched}`;
when the counters object is still `undefined`, leave it `undefined`. -/
def handleEnrichment (s : AppState) (d : RawEvent) : AppState :=
  let s := { s with
    currentPhase := some Phase.enrichment,
    status := some ⟨"Enriching",
      msgOr d.message "Enriching documents with additional content"⟩ }
  if truthy d.category && d.enriched.isSome then
    match s.enrichmentCounts with
    | none => s
    | some m =>
      let cat := d.category.getD ""
      let newTotal :=
        match lookupKey m cat with
        | some c => if c.total = 0 then d.total.getD 0 else c.total
        | none => d.total.getD 0
      { s with enrichmentCounts := some (upsert m cat ⟨newTotal, d.enriched.getD 0⟩) }
  else s

/-- The `briefing_start` branch. -/
def handleBriefingStart (s : AppState) (d : RawEvent) : AppState :=
  let s := { s with
    currentPhase := some Phase.briefing,
    status := some ⟨"Generating briefings",
      "Creating " ++ jsShow d.category ++ " briefing from " ++
        jsShowNat d.total_docs ++ " documents"⟩ }
  let s := { s with collapseEnrichmentScheduled := s.collapseEnrichmentScheduled + 1 }
  scrollToStatus s

/-- The `briefing_complete` branch: mark the category true and, whenever
every value in the updated map is true, schedule the briefings collapse. -/
def handleBriefingComplete (s : AppState) (d : RawEvent) : AppState :=
  let s := { s with
    currentPhase := some Phase.briefing,
    status := some ⟨"Briefing complete",
      jsShow d.category ++ " briefing generated (" ++
        jsShowNat d.content_length ++ " characters)"⟩ }
  if truthy d.category then
    let newBriefingStatus := upsert s.briefingStatus (d.category.getD "") true
    let s :=
      if newBriefingStatus.all (fun p => p.2) then
        { s with collapseBriefingsScheduled := s.collapseBriefingsScheduled + 1 }
      else s
    { s with briefingStatus := newBriefingStatus }
  else s

/-- The `report_compilation` branch. -/
def handleReportCompilation (s : AppState) (d : RawEvent) : AppState :=
  { s with
    currentPhase := some Phase.briefing,
    status := some ⟨"Finalizing report", msgOr d.message "Compiling final report"⟩ }

/-- The `report_chunk` branch (guarded by a truthy chunk): append the chunk
to `prev?.details?.report || ''`. -/
def handleReportChunk (s : AppState) (d : RawEvent) : AppState :=
  let s := { s with isReportStreaming := true }
  let s := { s with report := some (s.report.getD "" ++ d.chunk.getD "") }
  { s with status := some ⟨"Finalizing report", "Generating final report..."⟩ }

/-- The `complete` branch (guarded by a truthy report): replace the report
wholesale, mark complete, close the stream handle. -/
def handleComplete (s : AppState) (d : RawEvent) : AppState :=
  { s with
    isReportStreaming := false,
    report := some (d.report.getD ""),
    status := some ⟨"Complete", "Research completed successfully"⟩,
    isComplete := true,
    isResearching := false,
    streamOpen := false }

/-- The `error` branch: record the error, stop researching, close the handle. -/
def handleError (s : AppState) (d : RawEvent) : AppState :=
  { s with
    errorMsg := d.errorMsg,
    isResearching := false,
    streamOpen := false }

/-- The whole `eventSource.onmessage` handler: first the standalone
`progress` conditional, then the event-kind dispatch chain.  An event whose
`type` matches no branch falls through with no state change. -/
def onMessage (s0 : AppState) (d : RawEvent) : AppState :=
  let s := if d.type = "progress" ∧ truthy d.step = true then handleProgress s0 d else s0
  if d.type = "query_generating" then handleQueryGenerating s d
  else if d.type = "query_generated" then handleQueryGenerated s d
  else if d.type = "research_init" then handleResearchInit s d
  else if d.type = "crawl_start" then handleCrawlStart s d
  else if d.type = "curation" then handleCuration s d
  else if d.type = "enrichment" then handleEnrichment s d
  else if d.type = "briefing_start" then handleBriefingStart s d
  else if d.type = "briefing_complete" then handleBriefingComplete s d
  else if d.type = "report_compilation" then handleReportCompilation s d
  else if d.type = "report_chunk" ∧ truthy d.chunk = true then handleReportChunk s d
  else if d.type = "complete" ∧ truthy d.report = true then handleComplete s d
  else if d.type = "error" then handleError s d
  else s

/-- Process a list of decoded events in arrival order. -/
def run (s : AppState) (es : List RawEvent) : AppState :=
  es.foldl onMessage s

/-- The initial values of all the `useState` cells. -/
def initState : AppState where
  isResearching := false
  status := none
  report := none
  errorMsg := none
  isComplete := false
  currentPhase := none
  queries := []
  streamingQueries := []
  enrichmentCounts := none
  briefingStatus := [("company", false), ("industry", false), ("financial", false), ("news", false)]
  isQueriesExpanded := true
  isEnrichmentExpanded := true
  isBriefingExpanded := true
  hasScrolledToStatus := false
  isReportStreaming := false
  streamOpen := false
  collapseQueriesScheduled := 0
  collapseEnrichmentScheduled := 0
  collapseBriefingsScheduled := 0

/-- `streamResults`: open the `EventSource` for a job and hold the handle. -/
def streamResults (s : AppState) : AppState :=
  { s with streamOpen := true }

/-- `resetResearch`: the state once its deferred clearing has run.  It resets
the listed cells and nothing else; in particular it never touches
`eventSourceRef`, so `streamOpen` is unchanged. -/
def resetResearch (s : AppState) : AppState :=
  { s with
    status := none,
    report := none,
    errorMsg := none,
    isComplete := false,
    currentPhase := none,
    queries := [],
    streamingQueries := [],
    enrichmentCounts := none,
    briefingStatus := [("company", false), ("industry", false), ("financial", false), ("news", false)],
    isQueriesExpanded := true,
    isEnrichmentExpanded := true,
    isBriefingExpanded := true,
    hasScrolledToStatus := false,
    isReportStreaming := false }

/-- A flattened form of `onMessage`: because the event kinds tested by the
standalone `progress` conditional and by the dispatch chain are mutually
exclusive, the handler is equal to a single if-chain.  Used as the normal
form in proofs. -/
def dispatch (s : AppState) (d : RawEvent) : AppState :=
  if d.type = "progress" ∧ truthy d.step = true then handleProgress s d
  else if d.type = "query_generating" then handleQueryGenerating s d
  else if d.type = "query_generated" then handleQueryGenerated s d
  else if d.type = "research_init" then handleResearchInit s d
  else if d.type = "crawl_start" then handleCrawlStart s d
  else if d.type = "curation" then handleCuration s d
  else if d.type = "enrichment" then handleEnrichment s d
  else if d.type = "briefing_start" then handleBriefingStart s d
  else if d.type = "briefing_complete" then handleBriefingComplete s d
  else if d.type = "report_compilation" then handleReportCompilation s d
  else if d.type = "report_chunk" ∧ truthy d.chunk = true then handleReportChunk s d
  else if d.type = "complete" ∧ truthy d.report = true then handleComplete s d
  else if d.type = "error" then handleError s d
  else s

theorem onMessage_eq_dispatch (s : AppState) (d : RawEvent) :
    onMessage s d = dispatch s d := by
  unfold onMessage dispatch
  by_cases hp : d.type = "progress" ∧ truthy d.step = true
  · simp [hp, hp.1, hp.2]
  · simp [hp]

theorem onMessage_query_generating (s : AppState) (d : RawEvent)
    (h : d.type = "query_generating") :
    onMessage s d = handleQueryGenerating s d := by
  rw [onMessage_eq_dispatch]; unfold dispatch; simp [h]

theorem onMessage_query_generated (s : AppState) (d : RawEvent)
    (h : d.type = "query_generated") :
    onMessage s d = handleQueryGenerated s d := by
  rw [onMessage_eq_dispatch]; unfold dispatch; simp [h]

theorem onMessage_curation (s : AppState) (d : RawEvent)
    (h : d.type = "curation") :
    onMessage s d = handleCuration s d := by
  rw [onMessage_eq_dispatch]; unfold dispatch; simp [h]

theorem onMessage_enrichment (s : AppState) (d : RawEvent)
    (h : d.type = "enrichment") :
    onMessage s d = handleEnrichment s d := by
  rw [onMessage_eq_dispatch]; unfold dispatch; simp [h]

theorem onMessage_briefing_complete (s : AppState) (d : RawEvent)
    (h : d.type = "briefing_complete") :
    onMessage s d = handleBriefingComplete s d := by
  rw [onMessage_eq_dispatch]; unfold dispatch; simp [h]

theorem onMessage_report_chunk (s : AppState) (d : RawEvent)
    (h : d.type = "report_chunk") (hc : truthy d.chunk = true) :
    onMessage s d = handleReportChunk s d := by
  rw [onMessage_eq_dispatch]; unfold dispatch; simp [h, hc]

theorem onMessage_report_chunk_dropped (s : AppState) (d : RawEvent)
    (h : d.type = "report_chunk") (hc : truthy d.chunk = false) :
    onMessage s d = s := by
  rw [onMessage_eq_dispatch]; unfold dispatch; simp [h, hc]

theorem onMessage_complete (s : AppState) (d : RawEvent)
    (h : d.type = "complete") (hr : truthy d.report = true) :
    onMessage s d = handleComplete s d := by
  rw [onMessage_eq_dispatch]; unfold dispatch; simp [h, hr]

theorem onMessage_complete_dropped (s : AppState) (d : RawEvent)
    (h : d.type = "complete") (hr : truthy d.report = false) :
    onMessage s d = s := by
  rw [onMessage_eq_dispatch]; unfold dispatch; simp [h, hr]

theorem onMessage_progress (s : AppState) (d : RawEvent)
    (h : d.type = "progress") (hs : truthy d.step = true) :
    onMessage s d = handleProgress s d := by
  rw [onMessage_eq_dispatch]; unfold dispatch; simp [h, hs]

theorem onMessage_progress_nostep (s : AppState) (d : RawEvent)
    (h : d.type = "progress") (hs : truthy d.step = false) :
    onMessage s d = s := by
  rw [onMessage_eq_dispatch]; unfold dispatch; simp [h, hs]

theorem onMessage_research_init (s : AppState) (d : RawEvent)
    (h : d.type = "research_init") :
    onMessage s d = handleResearchInit s d := by
  rw [onMessage_eq_dispatch]; unfold dispatch; simp [h]

theorem onMessage_crawl_start (s : AppState) (d : RawEvent)
    (h : d.type = "crawl_start") :
    onMessage s d = handleCrawlStart s d := by
  rw [onMessage_eq_dispatch]; unfold dispatch; simp [h]

theorem onMessage_briefing_start (s : AppState) (d : RawEvent)
    (h : d.type = "briefing_start") :
    onMessage s d = handleBriefingStart s d := by
  rw [onMessage_eq_dispatch]; unfold dispatch; simp [h]

theorem onMessage_report_compilation (s : AppState) (d : RawEvent)
    (h : d.type = "report_compilation") :
    onMessage s d = handleReportCompilation s d := by
  rw [onMessage_eq_dispatch]; unfold dispatch; simp [h]

theorem onMessage_error_event (s : AppState) (d : RawEvent)
    (h : d.type = "error") :
    onMessage s d = handleError s d := by
  rw [onMessage_eq_dispatch]; unfold dispatch; simp [h]

/-- The event kinds that any branch of the handler tests for. -/
def recognizedTypes : List String :=
  ["progress", "query_generating", "query_generated", "research_init", "crawl_start",
   "curation", "enrichment", "briefing_start", "briefing_complete", "report_compilation",
   "report_chunk", "complete", "error"]

theorem onMessage_unrecognized (s : AppState) (d : RawEvent)
    (h : d.type ∉ recognizedTypes) :
    onMessage s d = s := by
  rw [onMessage_eq_dispatch]; unfold dispatch
  simp only [recognizedTypes, List.mem_cons, List.not_mem_nil, or_false, not_or] at h
  obtain ⟨h1, h2, h3, h4, h5, h6, h7, h8, h9, h10, h11, h12, h13⟩ := h
  simp [h1, h2, h3, h4, h5, h6, h7, h8, h9, h10, h11, h12, h13]

theorem mem_upsert {α : Type} {l : List (String × α)} {k : String} {v : α}
    {p : String × α} (hp : p ∈ upsert l k v) : p.1 = k ∨ p ∈ l := by
  unfold upsert at hp
  split at hp
  · rcases List.mem_map.mp hp with ⟨q, hq, hqe⟩
    by_cases hqk : q.1 == k
    · left; simp only [hqk, if_pos] at hqe; rw [← hqe]
    · right
      simp only [hqk, Bool.false_eq_true, if_neg, if_false] at hqe
      exact hqe ▸ hq
  · rcases List.mem_append.mp hp with h | h
    · right; exact h
    · left; simp only [List.mem_singleton] at h; rw [h]

theorem mem_removeKey {α : Type} {l : List (String × α)} {k : String}
    {p : String × α} (hp : p ∈ removeKey l k) : p ∈ l ∧ p.1 ≠ k := by
  unfold removeKey at hp
  have := List.mem_filter.mp hp
  refine ⟨this.1, ?_⟩
  have hb := this.2
  simp only [bne_iff_ne, ne_eq] at hb
  exact hb

theorem keyMem_removeKey_self {α : Type} (l : List (String × α)) (k : String) :
    keyMem (removeKey l k) k = false := by
  unfold keyMem
  rw [Bool.eq_false_iff]
  intro hmem
  rw [List.any_eq_true] at hmem
  rcases hmem with ⟨p, hp, hpk⟩
  have := (mem_removeKey hp).2
  exact this (by simpa using hpk)

/-- Whether some finalized query record has the given streaming-map key. -/
def finalizedHas (s : AppState) (k : String) : Bool :=
  s.queries.any (fun r => qKey r.category r.number == k)

/-- No streaming-map key is the key of a finalized query record. -/
def queryDisjoint (s : AppState) : Bool :=
  s.streamingQueries.all (fun p => !(finalizedHas s p.1))

/-- Well-ordered query events: no `query_generating` event arrives after a
`query_generated` event with the same `(category, query_number)` key. -/
def orderedQueryEvents : List RawEvent → Bool
  | [] => true
  | e :: rest =>
    (if e.type = "query_generated" then
      rest.all (fun e2 => !(e2.type == "query_generating" &&
        qKey e2.category e2.query_number == qKey e.category e.query_number))
    else true) && orderedQueryEvents rest

/-- No upcoming `query_generating` event's key is already finalized. -/
def noFinalizedGenerating (s : AppState) (es : List RawEvent) : Prop :=
  ∀ e ∈ es, e.type = "query_generating" →
    finalizedHas s (qKey e.category e.query_number) = false

theorem handleQueryGenerating_fields (s : AppState) (d : RawEvent) :
    (handleQueryGenerating s d).queries = s.queries ∧
    (handleQueryGenerating s d).streamingQueries =
      upsert s.streamingQueries (qKey d.category d.query_number)
        ⟨d.query, d.query_number, d.category, false⟩ := by
  unfold handleQueryGenerating
  exact ⟨rfl, rfl⟩

theorem handleQueryGenerated_fields (s : AppState) (d : RawEvent) :
    (handleQueryGenerated s d).queries =
      s.queries ++ [QueryRecord.mk d.query d.query_number d.category] ∧
    (handleQueryGenerated s d).streamingQueries =
      removeKey s.streamingQueries (qKey d.category d.query_number) := by
  dsimp only [handleQueryGenerated, scrollToStatus]
  split <;> exact ⟨rfl, rfl⟩

theorem handleProgress_fields (s : AppState) (d : RawEvent) :
    (handleProgress s d).queries = s.queries ∧
    (handleProgress s d).streamingQueries = s.streamingQueries := by
  dsimp only [handleProgress, scrollToStatus]
  repeat' split
  all_goals exact ⟨rfl, rfl⟩

theorem handleCuration_fields (s : AppState) (d : RawEvent) :
    (handleCuration s d).queries = s.queries ∧
    (handleCuration s d).streamingQueries = s.streamingQueries := by
  dsimp only [handleCuration, scrollToStatus]
  repeat' split
  all_goals exact ⟨rfl, rfl⟩

theorem handleEnrichment_fields (s : AppState) (d : RawEvent) :
    (handleEnrichment s d).queries = s.queries ∧
    (handleEnrichment s d).streamingQueries = s.streamingQueries := by
  dsimp only [handleEnrichment]
  repeat' split
  all_goals exact ⟨rfl, rfl⟩

theorem handleBriefingStart_fields (s : AppState) (d : RawEvent) :
    (handleBriefingStart s d).queries = s.queries ∧
    (handleBriefingStart s d).streamingQueries = s.streamingQueries := by
  dsimp only [handleBriefingStart, scrollToStatus]
  repeat' split
  all_goals exact ⟨rfl, rfl⟩

theorem handleBriefingComplete_fields (s : AppState) (d : RawEvent) :
    (handleBriefingComplete s d).queries = s.queries ∧
    (handleBriefingComplete s d).streamingQueries = s.streamingQueries := by
  dsimp only [handleBriefingComplete]
  repeat' split
  all_goals exact ⟨rfl, rfl⟩

theorem onMessage_other_fields (s : AppState) (d : RawEvent)
    (h1 : d.type ≠ "query_generating") (h2 : d.type ≠ "query_generated") :
    (onMessage s d).queries = s.queries ∧
    (onMessage s d).streamingQueries = s.streamingQueries := by
  by_cases hm : d.type ∈ recognizedTypes
  · simp only [recognizedTypes, List.mem_cons, List.not_mem_nil, or_false] at hm
    rcases hm with h | h | h | h | h | h | h | h | h | h | h | h | h
    · cases hs : truthy d.step with
      | true => rw [onMessage_progress s d h hs]; exact handleProgress_fields s d
      | false => rw [onMessage_progress_nostep s d h hs]; exact ⟨rfl, rfl⟩
    · exact absurd h h1
    · exact absurd h h2
    · rw [onMessage_research_init s d h]; exact ⟨rfl, rfl⟩
    · rw [onMessage_crawl_start s d h]; exact ⟨rfl, rfl⟩
    · rw [onMessage_curation s d h]; exact handleCuration_fields s d
    · rw [onMessage_enrichment s d h]; exact handleEnrichment_fields s d
    · rw [onMessage_briefing_start s d h]; exact handleBriefingStart_fields s d
    · rw [onMessage_briefing_complete s d h]; exact handleBriefingComplete_fields s d
    · rw [onMessage_report_compilation s d h]; exact ⟨rfl, rfl⟩
    · cases hc : truthy d.chunk with
      | true => rw [onMessage_report_chunk s d h hc]; exact ⟨rfl, rfl⟩
      | false => rw [onMessage_report_chunk_dropped s d h hc]; exact ⟨rfl, rfl⟩
    · cases hr : truthy d.report with
      | true => rw [onMessage_complete s d h hr]; exact ⟨rfl, rfl⟩
      | false => rw [onMessage_complete_dropped s d h hr]; exact ⟨rfl, rfl⟩
    · rw [onMessage_error_event s d h]; exact ⟨rfl, rfl⟩
  · rw [onMessage_unrecognized s d hm]; exact ⟨rfl, rfl⟩

theorem run_cons (s : AppState) (e : RawEvent) (es : List RawEvent) :
    run s (e :: es) = run (onMessage s e) es := rfl

theorem finalizedHas_of_eq (s s' : AppState) (hq : s'.queries = s.queries)
    (k : String) : finalizedHas s' k = finalizedHas s k := by
  unfold finalizedHas; rw [hq]

theorem run_queryDisjoint (es : List RawEvent) : ∀ s : AppState,
    queryDisjoint s = true →
    noFinalizedGenerating s es →
    orderedQueryEvents es = true →
    queryDisjoint (run s es) = true := by
  induction es with
  | nil => intro s hq _ _; exact hq
  | cons e rest ih =>
    intro s hq hr hg
    have hg2 : orderedQueryEvents rest = true := by
      unfold orderedQueryEvents at hg
      exact ((Bool.and_eq_true _ _).mp hg).2
    rw [run_cons]
    by_cases hgg : e.type = "query_generating"
    · have heq := onMessage_query_generating s e hgg
      have hf := handleQueryGenerating_fields s e
      apply ih
      · rw [heq]
        unfold queryDisjoint
        rw [List.all_eq_true]
        intro p hp
        rw [hf.2] at hp
        rw [finalizedHas_of_eq s _ hf.1]
        rcases mem_upsert hp with hk | hmem
        · rw [hk]
          rw [hr e (List.mem_cons_self e rest) hgg]
          rfl
        · have hq' := hq
          unfold queryDisjoint at hq'
          rw [List.all_eq_true] at hq'
          exact hq' p hmem
      · intro e2 he2 ht2
        rw [heq, finalizedHas_of_eq s _ hf.1]
        exact hr e2 (List.mem_cons_of_mem e he2) ht2
      · exact hg2
    by_cases hgd : e.type = "query_generated"
    · have heq := onMessage_query_generated s e hgd
      have hf := handleQueryGenerated_fields s e
      have hgall : rest.all (fun e2 => !(e2.type == "query_generating" &&
          qKey e2.category e2.query_number == qKey e.category e.query_number)) = true := by
        unfold orderedQueryEvents at hg
        have h1 := ((Bool.and_eq_true _ _).mp hg).1
        rwa [if_pos hgd] at h1
      have hfh : ∀ k : String, finalizedHas (onMessage s e) k =
          (finalizedHas s k || (qKey e.category e.query_number == k)) := by
        intro k
        rw [heq]
        unfold finalizedHas
        rw [hf.1, List.any_append]
        simp
      apply ih
      · rw [heq]
        unfold queryDisjoint
        rw [List.all_eq_true]
        intro p hp
        rw [hf.2] at hp
        obtain ⟨hmem, hneq⟩ := mem_removeKey hp
        have hk := hfh p.1
        rw [heq] at hk
        rw [hk]
        have ha : finalizedHas s p.1 = false := by
          have hq' := hq
          unfold queryDisjoint at hq'
          rw [List.all_eq_true] at hq'
          simpa using hq' p hmem
        have hb : (qKey e.category e.query_number == p.1) = false := by
          rw [beq_eq_false_iff_ne]
          exact fun hEq => hneq hEq.symm
        rw [ha, hb]
        rfl
      · intro e2 he2 ht2
        rw [hfh (qKey e2.category e2.query_number)]
        have ha := hr e2 (List.mem_cons_of_mem e he2) ht2
        have hb : (qKey e.category e.query_number ==
            qKey e2.category e2.query_number) = false := by
          rw [List.all_eq_true] at hgall
          have h2 := hgall e2 he2
          simp only [Bool.not_eq_true'] at h2
          rw [Bool.and_eq_false_iff] at h2
          rcases h2 with h2 | h2
          · exact absurd h2 (by rw [ht2]; simp)
          · rw [beq_eq_false_iff_ne]
            rw [beq_eq_false_iff_ne] at h2
            exact fun hEq => h2 hEq.symm
        rw [ha, hb]
        rfl
      · exact hg2
    · have hf := onMessage_other_fields s e hgg hgd
      apply ih
      · unfold queryDisjoint
        rw [List.all_eq_true]
        intro p hp
        rw [hf.2] at hp
        rw [finalizedHas_of_eq s _ hf.1]
        have hq' := hq
        unfold queryDisjoint at hq'
        rw [List.all_eq_true] at hq'
        exact hq' p hp
      · intro e2 he2 ht2
        rw [finalizedHas_of_eq s _ hf.1]
        exact hr e2 (List.mem_cons_of_mem e he2) ht2
      · exact hg2

theorem lookupKey_upsert {α : Type} (l : List (String × α)) (k : String) (v : α) :
    lookupKey (upsert l k v) k = some v := by
  induction l with
  | nil =>
    simp [upsert, lookupKey]
  | cons p l ih =>
    unfold upsert at ih ⊢
    by_cases hp : (p.1 == k) = true
    · have hany : ((p :: l).any fun q => q.1 == k) = true := by
        simp [List.any_cons, hp]
      rw [if_pos hany]
      unfold lookupKey
      rw [List.map_cons, if_pos hp]
      rw [List.find?_cons_of_pos _ (by simp)]
      rfl
    · simp only [List.any_cons, hp, Bool.false_or]
      by_cases hl : (l.any fun q => q.1 == k) = true
      · rw [if_pos hl]
        rw [if_pos hl] at ih
        simp only [List.map_cons, hp, Bool.false_eq_true, if_false, if_neg]
        unfold lookupKey at ih ⊢
        rw [List.find?_cons_of_neg _ (by simpa using hp)]
        exact ih
      · rw [if_neg hl]
        rw [if_neg hl] at ih
        unfold lookupKey at ih ⊢
        rw [List.cons_append, List.find?_cons_of_neg _ (by simpa using hp)]
        exact ih

/-- Concrete event builders used in the concrete scenarios below. -/
def curationEv (c : String) (t : Nat) : RawEvent :=
  { type := "curation", category := some c, total := some t }

def progressEv (st : String) : RawEvent :=
  { type := "progress", step := some st }

def queryGeneratedEv (c : String) (n : Nat) (q : String) : RawEvent :=
  { type := "query_generated", category := some c, query_number := some n, query := some q }

def queryGeneratingEv (c : String) (n : Nat) (q : String) : RawEvent :=
  { type := "query_generating", category := some c, query_number := some n, query := some q }

def enrichmentEv (c : String) (k : Nat) : RawEvent :=
  { type := "enrichment", category := some c, enriched := some k }

def briefingCompleteEv (c : String) : RawEvent :=
  { type := "briefing_complete", category := some c }

def reportChunkEv (c : String) : RawEvent :=
  { type := "report_chunk", chunk := some c }

def completeEv (r : String) : RawEvent :=
  { type := "complete", report := some r }

/-- C5: a `curation` event carrying a category always replaces that category's
counter with `{total: the event's total, or 0 if absent; enriched: 0}`, even
when a counter with a positive enriched value already exists. -/
theorem c5_curation_resets_counter (s : AppState) (d : RawEvent) (c : String)
    (h : d.type = "curation") (hc : d.category = some c) (hcne : c ≠ "") :
    lookupKey ((onMessage s d).enrichmentCounts.getD []) c =
      some ⟨d.total.getD 0, 0⟩ := by
  rw [onMessage_curation s d h]
  dsimp only [handleCuration, scrollToStatus]
  rw [hc]
  have htr : truthy (some c) = true := by
    unfold truthy; simpa using hcne
  rw [if_pos htr]
  split <;> exact lookupKey_upsert _ c _

/-- C5 witness: a counter `{total:5, enriched:3}` followed by a `curation`
with total 7 yields `{total:7, enriched:0}`. -/
theorem c5_witness :
    lookupKey ((onMessage
        (run initState [curationEv "company" 5, enrichmentEv "company" 3])
        (curationEv "company" 7)).enrichmentCounts.getD []) "company" =
      some ⟨7, 0⟩ :=
  c5_curation_resets_counter
    (run initState [curationEv "company" 5, enrichmentEv "company" 3])
    (curationEv "company" 7) "company" rfl rfl (by decide)

/-- C4 counterexample: after `curation{company}` the counters mapping exists
with no "news" entry; `enrichment{news, enriched:4}` then creates a "news"
entry `{total:0, enriched:4}` instead of leaving the mapping unchanged. -/
theorem c4_counterexample :
    (run initState [curationEv "company" 1]).enrichmentCounts =
      some [("company", ⟨1, 0⟩)] ∧
    (run initState [curationEv "company" 1, enrichmentEv "news" 4]).enrichmentCounts =
      some [("company", ⟨1, 0⟩), ("news", ⟨0, 4⟩)] := by
  constructor <;> rfl

/-- C4 (amended): an `enrichment` event leaves the counters untouched only
while the counters mapping is still undefined (no `curation` yet); once the
mapping exists, an `enrichment` for a category with no entry creates one with
`{total: the event's total or 0, enriched: the reported value}`. -/
theorem c4_enrichment_missing_entry (s : AppState) (d : RawEvent)
    (h : d.type = "enrichment") :
    (s.enrichmentCounts = none → (onMessage s d).enrichmentCounts = none) ∧
    (∀ (m : List (String × EnrichmentCounter)) (c : String) (k : Nat),
      s.enrichmentCounts = some m → d.category = some c → c ≠ "" →
      d.enriched = some k → lookupKey m c = none →
      (onMessage s d).enrichmentCounts =
        some (upsert m c ⟨d.total.getD 0, k⟩)) := by
  rw [onMessage_enrichment s d h]
  constructor
  · intro hn
    dsimp only [handleEnrichment]
    rw [hn]
    split <;> rfl
  · intro m c k hm hc hcne hk hlook
    dsimp only [handleEnrichment]
    rw [hm, hc, hk]
    have htr : truthy (some c) = true := by
      unfold truthy; simpa using hcne
    rw [htr]
    simp only [Option.isSome_some, Bool.and_true, if_pos, Option.getD_some]
    rw [hlook]

/-- C4 witness: concrete instances of both parts of the amended claim. -/
theorem c4_witness :
    (onMessage initState (enrichmentEv "news" 4)).enrichmentCounts = none ∧
    (onMessage (run initState [curationEv "company" 1])
        (enrichmentEv "news" 4)).enrichmentCounts =
      some (upsert [("company", ⟨1, 0⟩)] "news" ⟨0, 4⟩) :=
  ⟨(c4_enrichment_missing_entry initState (enrichmentEv "news" 4) rfl).1 rfl,
   (c4_enrichment_missing_entry (run initState [curationEv "company" 1])
      (enrichmentEv "news" 4) rfl).2 [("company", ⟨1, 0⟩)] "news" 4
      rfl rfl (by decide) rfl rfl⟩

/-- C7 counterexample: a counter at `{total:5, enriched:3}` hit by
`enrichment{company, enriched:1}` drops to `{total:5, enriched:1}` — the
enriched count decreases, refuting the claimed monotonicity. -/
theorem c7_counterexample :
    lookupKey (((run initState [curationEv "company" 5,
      enrichmentEv "company" 3]).enrichmentCounts).getD []) "company" = some ⟨5, 3⟩ ∧
    lookupKey (((run initState [curationEv "company" 5, enrichmentEv "company" 3,
      enrichmentEv "company" 1]).enrichmentCounts).getD []) "company" = some ⟨5, 1⟩ ∧
    ¬(3 ≤ 1) := by
  refine ⟨rfl, rfl, by decide⟩

/-- C7 (amended): an `enrichment` event for a category with an existing
counter entry sets `enriched` to exactly the reported value (and keeps the
entry's nonzero total), so the count decreases whenever the event reports a
smaller value than the current one. -/
theorem c7_enrichment_sets_reported (s : AppState) (d : RawEvent)
    (m : List (String × EnrichmentCounter)) (cnt : EnrichmentCounter)
    (c : String) (k : Nat)
    (h : d.type = "enrichment") (hm : s.enrichmentCounts = some m)
    (hc : d.category = some c) (hcne : c ≠ "") (hk : d.enriched = some k)
    (hcnt : lookupKey m c = some cnt) :
    lookupKey ((onMessage s d).enrichmentCounts.getD []) c =
      some ⟨if cnt.total = 0 then d.total.getD 0 else cnt.total, k⟩ := by
  rw [onMessage_enrichment s d h]
  dsimp only [handleEnrichment]
  rw [hm, hc, hk]
  have htr : truthy (some c) = true := by
    unfold truthy; simpa using hcne
  rw [htr]
  simp only [Option.isSome_some, Bool.and_true, if_pos, Option.getD_some]
  rw [hcnt]
  exact lookupKey_upsert _ c _

/-- C7 witness: the `{total:5, enriched:3}` counter updated by an enrichment
reporting 1 ends at `{total:5, enriched:1}`. -/
theorem c7_witness :
    lookupKey ((onMessage
        (run initState [curationEv "company" 5, enrichmentEv "company" 3])
        (enrichmentEv "company" 1)).enrichmentCounts.getD []) "company" =
      some ⟨5, 1⟩ :=
  c7_enrichment_sets_reported
    (run initState [curationEv "company" 5, enrichmentEv "company" 3])
    (enrichmentEv "company" 1) [("company", ⟨5, 3⟩)] ⟨5, 3⟩ "company" 1
    rfl rfl rfl (by decide) rfl rfl

/-- C1 counterexample: processing `curation`, then `progress` with step
"briefing", then `query_generated` from the initial state leaves the phase at
`search`, not `briefing` — the phase regresses, refuting the claimed
monotonicity. -/
theorem c1_counterexample :
    (run initState [curationEv "company" 5, progressEv "briefing",
      queryGeneratedEv "company" 1 "q"]).currentPhase = some Phase.search ∧
    (run initState [curationEv "company" 5, progressEv "briefing",
      queryGeneratedEv "company" 1 "q"]).currentPhase ≠ some Phase.briefing := by
  refine ⟨rfl, by decide⟩

/-- C1 (amended): the phase is not monotone within a job: a `query_generated`
event sets the phase to `search` unconditionally, whatever phase the job had
reached, so the concrete sequence of the claim ends at `search`. -/
theorem c1_query_generated_sets_search (s : AppState) (d : RawEvent)
    (h : d.type = "query_generated") :
    (onMessage s d).currentPhase = some Phase.search := by
  rw [onMessage_query_generated s d h]
  dsimp only [handleQueryGenerated, scrollToStatus]
  split <;> rfl

/-- C1 witness: the amended claim applied after `curation` and a briefing
`progress` step. -/
theorem c1_witness :
    (onMessage (run initState [curationEv "company" 5, progressEv "briefing"])
      (queryGeneratedEv "company" 1 "q")).currentPhase = some Phase.search :=
  c1_query_generated_sets_search
    (run initState [curationEv "company" 5, progressEv "briefing"])
    (queryGeneratedEv "company" 1 "q") rfl

/-- C3 counterexample: from the reachable state just after a stream handle is
opened, `resetResearch` leaves the handle open — the source's reset never
touches `eventSourceRef`, refuting "any open connection handle closed". -/
theorem c3_counterexample :
    (streamResults initState).streamOpen = true ∧
    (resetResearch (streamResults initState)).streamOpen = true := by
  refine ⟨rfl, rfl⟩

/-- C3 (amended): reset yields an empty finalized query sequence, empty
streaming-query map, undefined enrichment counters, all four briefing flags
false, an empty report buffer and phase null, but leaves the connection
handle exactly as it was (it is closed elsewhere: by terminal events, by a
new submission, or on unmount). -/
theorem c3_reset_clears_state (s : AppState) :
    (resetResearch s).queries = [] ∧
    (resetResearch s).streamingQueries = [] ∧
    (resetResearch s).enrichmentCounts = none ∧
    (resetResearch s).briefingStatus =
      [("company", false), ("industry", false), ("financial", false), ("news", false)] ∧
    (resetResearch s).report = none ∧
    (resetResearch s).status = none ∧
    (resetResearch s).currentPhase = none ∧
    (resetResearch s).streamOpen = s.streamOpen :=
  ⟨rfl, rfl, rfl, rfl, rfl, rfl, rfl, rfl⟩

/-- C6: every `report_chunk` appends its chunk to the report buffer, a
`complete` carrying a nonempty report replaces the buffer wholesale, and the
concrete sequence of the claim ends with exactly "FINAL". -/
theorem c6_chunks_append_complete_replaces (s : AppState) (d : RawEvent) :
    (d.type = "report_chunk" →
      (onMessage s d).report.getD "" = s.report.getD "" ++ d.chunk.getD "") ∧
    (d.type = "complete" → truthy d.report = true →
      (onMessage s d).report.getD "" = d.report.getD "") ∧
    (run initState [reportChunkEv "Hello ", reportChunkEv "world",
      completeEv "FINAL"]).report = some "FINAL" := by
  refine ⟨?_, ?_, rfl⟩
  · intro h
    cases hc : truthy d.chunk with
    | true =>
      rw [onMessage_report_chunk s d h hc]
      rfl
    | false =>
      rw [onMessage_report_chunk_dropped s d h hc]
      have hch : d.chunk.getD "" = "" := by
        unfold truthy at hc
        simpa using hc
      rw [hch]
      exact (String.append_empty _).symm
  · intro h hr
    rw [onMessage_complete s d h hr]
    rfl

/-- C6 witness: both conditional parts applied at concrete inputs. -/
theorem c6_witness :
    (onMessage initState (reportChunkEv "Hello ")).report.getD "" =
      initState.report.getD "" ++ (reportChunkEv "Hello ").chunk.getD "" ∧
    (onMessage initState (completeEv "FINAL")).report.getD "" =
      (completeEv "FINAL").report.getD "" :=
  ⟨(c6_chunks_append_complete_replaces initState (reportChunkEv "Hello ")).1 rfl,
   (c6_chunks_append_complete_replaces initState (completeEv "FINAL")).2.1 rfl rfl⟩

/-- C8 counterexample: after all four briefing categories are true, one more
`briefing_complete` for the already-true "news" category schedules the
collapse action a second time (the source re-checks "all true" on every
event), refuting "scheduled exactly once". -/
theorem c8_counterexample :
    (run initState [briefingCompleteEv "company", briefingCompleteEv "industry",
      briefingCompleteEv "financial", briefingCompleteEv "news",
      briefingCompleteEv "news"]).collapseBriefingsScheduled = 2 := by
  rfl

/-- C8 (amended): every `briefing_complete` carrying a category schedules the
collapse action exactly when the updated briefing map is all-true; the four
distinct categories from the initial state schedule it exactly once, but any
further `briefing_complete` once all flags are true schedules it again. -/
theorem c8_collapse_briefings_schedule (s : AppState) (d : RawEvent) (c : String)
    (h : d.type = "briefing_complete") (hc : d.category = some c) (hcne : c ≠ "") :
    ((onMessage s d).collapseBriefingsScheduled =
      s.collapseBriefingsScheduled +
        (if (upsert s.briefingStatus c true).all (fun p => p.2) then 1 else 0)) ∧
    (run initState [briefingCompleteEv "company", briefingCompleteEv "industry",
      briefingCompleteEv "financial",
      briefingCompleteEv "news"]).collapseBriefingsScheduled = 1 := by
  refine ⟨?_, rfl⟩
  rw [onMessage_briefing_complete s d h]
  dsimp only [handleBriefingComplete]
  rw [hc]
  have htr : truthy (some c) = true := by
    unfold truthy; simpa using hcne
  rw [if_pos htr]
  simp only [Option.getD_some]
  split <;> rfl

/-- C8 witness: the amended claim applied to the first `briefing_complete`
from the initial state. -/
theorem c8_witness :
    ((onMessage initState (briefingCompleteEv "company")).collapseBriefingsScheduled =
      initState.collapseBriefingsScheduled +
        (if (upsert initState.briefingStatus "company" true).all (fun p => p.2)
          then 1 else 0)) ∧
    (run initState [briefingCompleteEv "company", briefingCompleteEv "industry",
      briefingCompleteEv "financial",
      briefingCompleteEv "news"]).collapseBriefingsScheduled = 1 :=
  c8_collapse_briefings_schedule initState (briefingCompleteEv "company") "company"
    rfl rfl (by decide)

/-- C9 counterexample: an event of unrecognized kind "mystery" changes
nothing at all — in particular the status stays `none`, so the display step
is not set to the raw identifier as the claim asserts. -/
theorem c9_counterexample :
    onMessage initState { type := "mystery" } = initState ∧
    (onMessage initState { type := "mystery" }).status = none := by
  refine ⟨?_, rfl⟩
  exact onMessage_unrecognized initState _ (by decide)

/-- C9 (amended): an event of unrecognized kind leaves the whole state
unchanged (no status update, phase unchanged, accepted without error); it is
a `progress` event with an unrecognized step identifier that yields a display
status step equal to the raw identifier while leaving the phase unchanged. -/
theorem c9_unknown_kind_or_step (s : AppState) (d : RawEvent) :
    (d.type ∉ recognizedTypes → onMessage s d = s) ∧
    (∀ stp : String, d.type = "progress" → d.step = some stp →
      stp ∉ ["grounding", "financial_analyst", "news_scanner", "industry_analyst",
        "company_analyst", "collector", "curator", "enricher", "briefing", "editor"] →
      stp ≠ "" →
      (onMessage s d).status = some ⟨stp, "Processing " ++ stp ++ "..."⟩ ∧
      (onMessage s d).currentPhase = s.currentPhase) := by
  constructor
  · exact onMessage_unrecognized s d
  · intro stp h hstep hmem hne
    have htr : truthy d.step = true := by
      rw [hstep]; unfold truthy; simpa using hne
    rw [onMessage_progress s d h htr]
    dsimp only [handleProgress, scrollToStatus]
    rw [hstep]
    simp only [Option.getD_some]
    simp only [List.mem_cons, List.not_mem_nil, not_or, or_false] at hmem
    obtain ⟨n1, n2, n3, n4, n5, n6, n7, n8, n9, n10⟩ := hmem
    have hgs : getStepName stp = stp := by
      unfold getStepName
      simp [n1, n2, n3, n4, n5, n6, n7, n8, n9, n10]
    rw [hgs]
    simp only [List.mem_cons, List.not_mem_nil, n1, n2, n3, n4, n5, n6, n7, n8, n9,
      or_false, false_or, if_false, if_neg, not_false_iff, or_self]
    split <;> exact ⟨rfl, rfl⟩

/-- C9 witness: both parts at concrete inputs: an unknown kind is a no-op,
and a progress event with unknown step "oddstep" sets the display step to
"oddstep" with the phase unchanged. -/
theorem c9_witness :
    (onMessage initState { type := "mysterious" } = initState) ∧
    ((onMessage initState (progressEv "oddstep")).status =
      some ⟨"oddstep", "Processing oddstep..."⟩ ∧
     (onMessage initState (progressEv "oddstep")).currentPhase =
      initState.currentPhase) :=
  ⟨(c9_unknown_kind_or_step initState { type := "mysterious" }).1 (by decide),
   (c9_unknown_kind_or_step initState (progressEv "oddstep")).2 "oddstep"
     rfl rfl (by decide) (by decide)⟩

/-- C10: a `complete` event whose `report` is absent or empty changes no
state at all — buffer, phase, status, completion flag and the stream handle
are untouched; the event is silently dropped. -/
theorem c10_empty_complete_is_noop (s : AppState) (d : RawEvent)
    (h : d.type = "complete") (hr : truthy d.report = false) :
    onMessage s d = s := by
  rw [onMessage_eq_dispatch]; unfold dispatch; simp [h, hr]

/-- C10 witness: a `complete` event with no report leaves the initial state
unchanged. -/
theorem c10_witness :
    onMessage initState { type := "complete" } = initState :=
  c10_empty_complete_is_noop initState { type := "complete" } rfl rfl

/-- The C2 counterexample sequence: a `query_generating` arrives after the
`query_generated` for the same identity. -/
def lateGeneratingSeq : List RawEvent :=
  [queryGeneratedEv "company" 1 "q", queryGeneratingEv "company" 1 "q2"]

/-- A well-ordered generating/generated pair sharing one identity. -/
def pairedQuerySeq : List RawEvent :=
  [queryGeneratingEv "company" 1 "q", queryGeneratedEv "company" 1 "q"]

/-- C2 counterexample: after `query_generated` followed by `query_generating`
for the same identity `(company, 1)`, the identity is present in the
finalized sequence and in the streaming map at once, refuting the claimed
invariant for arbitrary event sequences. -/
theorem c2_counterexample :
    keyMem (run initState lateGeneratingSeq).streamingQueries
      (qKey (some "company") (some 1)) = true ∧
    finalizedHas (run initState lateGeneratingSeq)
      (qKey (some "company") (some 1)) = true := by
  refine ⟨rfl, rfl⟩

/-- C2 (amended): for every event sequence in which no `query_generating`
event follows a `query_generated` event of the same identity key, each
identity is present in at most one of the streaming map and the finalized
sequence; and each `query_generated` event removes its identity key from the
streaming map and appends exactly one record to the finalized sequence. -/
theorem c2_identity_in_at_most_one :
    (∀ es : List RawEvent, orderedQueryEvents es = true →
      ∀ (c : Option String) (n : Option Nat),
        ¬(keyMem (run initState es).streamingQueries (qKey c n) = true ∧
          finalizedHas (run initState es) (qKey c n) = true)) ∧
    (∀ (s : AppState) (d : RawEvent), d.type = "query_generated" →
      (onMessage s d).queries =
        s.queries ++ [QueryRecord.mk d.query d.query_number d.category] ∧
      keyMem (onMessage s d).streamingQueries
        (qKey d.category d.query_number) = false) := by
  constructor
  · intro es hg c n hboth
    obtain ⟨hmem, hfin⟩ := hboth
    have hdisj := run_queryDisjoint es initState rfl
      (fun e _ _ => rfl) hg
    unfold queryDisjoint at hdisj
    rw [List.all_eq_true] at hdisj
    unfold keyMem at hmem
    rw [List.any_eq_true] at hmem
    obtain ⟨p, hp, hpk⟩ := hmem
    have hnot := hdisj p hp
    have hpk2 : p.1 = qKey c n := by simpa using hpk
    rw [hpk2, hfin] at hnot
    simp at hnot
  · intro s d h
    refine ⟨?_, ?_⟩
    · rw [onMessage_query_generated s d h]
      exact (handleQueryGenerated_fields s d).1
    · rw [onMessage_query_generated s d h,
        (handleQueryGenerated_fields s d).2]
      exact keyMem_removeKey_self _ _

/-- C2 witness: the amended claim applied to a well-ordered
generating/generated pair and to a concrete `query_generated` event. -/
theorem c2_witness :
    (¬(keyMem (run initState pairedQuerySeq).streamingQueries
        (qKey (some "company") (some 1)) = true ∧
      finalizedHas (run initState pairedQuerySeq)
        (qKey (some "company") (some 1)) = true)) ∧
    ((onMessage initState (queryGeneratedEv "company" 1 "q")).queries =
      initState.queries ++ [QueryRecord.mk (some "q") (some 1) (some "company")] ∧
     keyMem (onMessage initState (queryGeneratedEv "company" 1 "q")).streamingQueries
        (qKey (some "company") (some 1)) = false) :=
  ⟨c2_identity_in_at_most_one.1 pairedQuerySeq (by decide) (some "company") (some 1),
   c2_identity_in_at_most_one.2 initState (queryGeneratedEv "company" 1 "q") rfl⟩

end CompanyResearch
